/-
Verification of the Agent Session Bridge (Slack / Telegram channel bots for
CX Agent Studio).  Shallow embedding of the Python sources:
  - src/slack/main.py, src/slack/config.py
  - src/telegram/main.py, src/telegram/config.py, src/telegram/ces_client.py
Strings are modelled as `List Char`; Python truthiness of a string is
modelled as `s ≠ []` (or, for `Optional[str]`, none / some [] falsy).
-/
import Mathlib

namespace CesBridge

/-! ## Character helpers -/

/-- ASCII alphanumeric test.  Models `str.isalnum()` from Python; in this
code base the tested character is always an ASCII literal (the candidate
session ids start with the literal prefixes of the f-strings), so the
ASCII reading is exact on every reachable input. -/
def isAsciiAlnum (c : Char) : Bool :=
  (('0' ≤ c) && (c ≤ '9')) || (('A' ≤ c) && (c ≤ 'Z')) || (('a' ≤ c) && (c ≤ 'z'))

/-- Characters legal in a session id: the class `[a-zA-Z0-9\-_]` of the
`re.sub` in src/slack/main.py line 65. -/
def legalChar (c : Char) : Bool :=
  isAsciiAlnum c || (c == '-') || (c == '_')

/-- One character of `re.sub(r"[^a-zA-Z0-9\-_]", "-", s)`: an illegal
character is replaced by a dash. -/
def subChar (c : Char) : Char :=
  if legalChar c then c else '-'

/-- Python whitespace for `str.strip()` (the ASCII whitespace characters;
the only whitespace this code ever inserts is a newline). -/
def pyIsSpace (c : Char) : Bool :=
  (c == ' ') || (c == '\t') || (c == '\n') || (c == '\r') ||
  (c == '\x0b') || (c == '\x0c')

/-- Models Python `str.lstrip()`. -/
def pyLstrip (s : List Char) : List Char :=
  s.dropWhile pyIsSpace

/-- Models Python `str.rstrip()`. -/
def pyRstrip (s : List Char) : List Char :=
  (s.reverse.dropWhile pyIsSpace).reverse

/-- Models Python `str.strip()`. -/
def pyStrip (s : List Char) : List Char :=
  pyLstrip (pyRstrip s)

/-! ## Decimal representation of naturals

Models Python `str(n)` for a non-negative int (used by the f-strings
`f"telegram-{abs(chat_id)}"` and the `{int(time.time())}` suffixes).
Written with explicit fuel so that it is structural and kernel-evaluable;
fuel `n + 1` always suffices because the argument shrinks by a factor 10. -/

def digitChar (d : Nat) : Char := Char.ofNat (48 + d)

def natDecReprAux : Nat → Nat → List Char
  | 0, _ => []
  | fuel + 1, n =>
    if n < 10 then [digitChar n]
    else natDecReprAux fuel (n / 10) ++ [digitChar (n % 10)]

def natDecRepr (n : Nat) : List Char := natDecReprAux (n + 1) n

/-- Decimal value of a digit string (proof tool, not part of the source). -/
def fromDigits (l : List Char) : Nat :=
  l.foldl (fun a c => 10 * a + (c.toNat - 48)) 0

theorem digitChar_toNat {d : Nat} (h : d < 10) : (digitChar d).toNat = 48 + d := by
  interval_cases d <;> decide

theorem digitChar_legal {d : Nat} (h : d < 10) : legalChar (digitChar d) = true := by
  interval_cases d <;> decide

theorem fromDigits_append_digit (l : List Char) (c : Char) :
    fromDigits (l ++ [c]) = 10 * fromDigits l + (c.toNat - 48) := by
  simp [fromDigits, List.foldl_append]

theorem fromDigits_natDecReprAux :
    ∀ fuel n, n < fuel → fromDigits (natDecReprAux fuel n) = n := by
  intro fuel
  induction fuel with
  | zero => intro n h; omega
  | succ fuel ih =>
    intro n h
    by_cases h10 : n < 10
    · simp [natDecReprAux, h10, fromDigits, digitChar_toNat h10]
    · have hdiv : n / 10 < fuel := by
        have : n / 10 < n := Nat.div_lt_self (by omega) (by omega)
        omega
      simp only [natDecReprAux, if_neg h10, fromDigits_append_digit]
      rw [ih (n / 10) hdiv, digitChar_toNat (Nat.mod_lt n (by omega))]
      omega

theorem fromDigits_natDecRepr (n : Nat) : fromDigits (natDecRepr n) = n :=
  fromDigits_natDecReprAux (n + 1) n (Nat.lt_succ_self n)

theorem natDecRepr_inj {m n : Nat} (h : natDecRepr m = natDecRepr n) : m = n := by
  have := fromDigits_natDecRepr m
  rw [h, fromDigits_natDecRepr] at this
  omega

theorem natDecReprAux_all_legal :
    ∀ fuel n, (natDecReprAux fuel n).all legalChar = true := by
  intro fuel
  induction fuel with
  | zero => intro n; rfl
  | succ fuel ih =>
    intro n
    by_cases h10 : n < 10
    · simp [natDecReprAux, h10, digitChar_legal h10]
    · simp only [natDecReprAux, if_neg h10, List.all_append, List.all_cons,
        List.all_nil, Bool.and_true, Bool.and_eq_true]
      exact ⟨ih (n / 10), digitChar_legal (Nat.mod_lt n (by omega))⟩

theorem natDecReprAux_ne_nil :
    ∀ fuel n, 0 < fuel → natDecReprAux fuel n ≠ [] := by
  intro fuel n hf
  cases fuel with
  | zero => omega
  | succ fuel =>
    by_cases h10 : n < 10
    · simp [natDecReprAux, h10]
    · simp [natDecReprAux, h10]

theorem natDecRepr_ne_nil (n : Nat) : natDecRepr n ≠ [] :=
  natDecReprAux_ne_nil (n + 1) n (Nat.succ_pos n)

theorem natDecRepr_length_pos (n : Nat) : 0 < (natDecRepr n).length :=
  List.length_pos.mpr (natDecRepr_ne_nil n)

/-! ## Configuration and resource names (src/telegram/config.py, src/slack/config.py)

Only the fields the clients read are modelled.  `ces_deployment_id` is
`Optional[str]`; Python truthiness of the property guard
`if self.ces_deployment_id:` treats both `None` and `""` as absent. -/

structure Config where
  gcp_project_id : List Char
  gcp_region : List Char
  ces_app_id : List Char
  ces_deployment_id : Option (List Char)

/-- `Config.app_resource_name` (config.py). -/
def app_resource_name (c : Config) : List Char :=
  "projects/".data ++ c.gcp_project_id ++ "/locations/".data ++ c.gcp_region ++
  "/apps/".data ++ c.ces_app_id

/-- `Config.deployment_resource_name` (config.py): some full resource name
when a deployment id is configured (truthy), none otherwise. -/
def deployment_resource_name (c : Config) : Option (List Char) :=
  match c.ces_deployment_id with
  | some d => if d ≠ [] then some (app_resource_name c ++ "/deployments/".data ++ d)
              else none
  | none => none

/-- `Config.get_session_name` (config.py). -/
def get_session_name (c : Config) (session_id : List Char) : List Char :=
  app_resource_name c ++ "/sessions/".data ++ session_id

/-! ## Request construction (src/telegram/ces_client.py)

The protobuf message `ces_v1.SessionConfig` of the external API carries a
session resource name and (per the wire schema in the spec, section 6) an
optional deployment resource name.  The code constructs it with keyword
argument `session=` only, leaving every other field unset. -/

structure SessionConfigPB where
  session : List Char
  deployment : Option (List Char)
  deriving DecidableEq

structure SessionInputPB where
  text : List Char
  deriving DecidableEq

structure RunSessionRequestPB where
  config : SessionConfigPB
  inputs : List SessionInputPB
  deriving DecidableEq

/-- Request built by `CESClient.run_session` (ces_client.py lines 67-78):
`SessionConfig(session=session_name)` plus one `SessionInput(text=...)`.
No deployment is ever populated. -/
def build_run_session_request (c : Config) (session_id user_message : List Char) :
    RunSessionRequestPB :=
  { config := { session := get_session_name c session_id, deployment := none }
    inputs := [{ text := user_message }] }

/-- One frame sent by the bidi client: either a config frame or a
realtime-input frame (`ces_v1.BidiSessionClientMessage`). -/
structure BidiClientMessagePB where
  config : Option SessionConfigPB
  realtime_input : Option SessionInputPB
  deriving DecidableEq

/-- The two frames sent in order by `BidiSessionClient.send_message.on_open`
(ces_client.py lines 215-238): first the config frame
`SessionConfig(session=session_name)`, then the query frame
`realtime_input=SessionInput(text=user_message)`. -/
def bidi_open_frames (c : Config) (session_id user_message : List Char) :
    List BidiClientMessagePB :=
  [ { config := some { session := get_session_name c session_id, deployment := none }
      realtime_input := none }
  , { config := none
      realtime_input := some { text := user_message } } ]

/-! ## Session id sanitizers (src/slack/main.py 39-67, src/telegram/main.py 37-60) -/

/-- Python `not session_id[0].isalnum()`.  The empty case is unreachable:
every candidate starts with a literal prefix. -/
def firstCharNotAlnum : List Char → Bool
  | [] => false
  | c :: _ => !(isAsciiAlnum c)

/-- `sanitize_session_id` of src/slack/main.py: build
`f"slack-{channel_id}-{thread_part}"` where `thread_part` is
`thread_ts.replace(".", "-") if thread_ts else "main"`, pad if shorter
than 5, prefix with `s` if the first character is not alphanumeric,
replace illegal characters with `-`, truncate to 63. -/
def slack_thread_part (thread_ts : Option (List Char)) : List Char :=
  match thread_ts with
  | some ts => if ts ≠ [] then ts.map (fun c => if c == '.' then '-' else c)
               else "main".data
  | none => "main".data

/-- The statement `if len(session_id) < 5: session_id = session_id + "-sess"`. -/
def padIfShort (s : List Char) : List Char :=
  if s.length < 5 then s ++ "-sess".data else s

/-- The statement `if not session_id[0].isalnum(): session_id = marker + session_id`. -/
def prependIfBadFirst (marker : Char) (s : List Char) : List Char :=
  if firstCharNotAlnum s then marker :: s else s

def sanitize_session_id_slack (channel_id : List Char)
    (thread_ts : Option (List Char)) : List Char :=
  List.take 63 (List.map subChar
    (prependIfBadFirst 's'
      (padIfShort ("slack-".data ++ channel_id ++ "-".data ++
        slack_thread_part thread_ts))))

/-- `sanitize_session_id` of src/telegram/main.py: build
`f"telegram-{abs(chat_id)}"`, pad if shorter than 5, prefix with `t` if the
first character is not alphanumeric, truncate to 63 (no character
substitution in this variant). -/
def sanitize_session_id_tg (chat_id : Int) : List Char :=
  List.take 63 (prependIfBadFirst 't'
    (padIfShort ("telegram-".data ++ natDecRepr chat_id.natAbs)))

/-- Decidable well-formedness of a session id, as stated by the spec:
length in [5,63], alphanumeric first character, charset `[A-Za-z0-9_-]`. -/
def isValidSessionId (s : List Char) : Bool :=
  decide (5 ≤ s.length) && decide (s.length ≤ 63) &&
  (match s with | [] => false | c :: _ => isAsciiAlnum c) &&
  s.all legalChar

/-! ## Session registry (src/telegram/main.py 63-94, src/slack/main.py 70-104) -/

/-- `get_session_id` of src/telegram/main.py over an explicit association
list modelling the `user_sessions` dict: return the mapped id, or map and
return the sanitized one. -/
def get_session_id_tg (sessions : List (Int × List Char)) (chat_id : Int) :
    List Char × List (Int × List Char) :=
  match sessions.lookup chat_id with
  | some sid => (sid, sessions)
  | none =>
    let sid := sanitize_session_id_tg chat_id
    (sid, (chat_id, sid) :: sessions)

/-- The statement `if len(new_session) > 63: new_session = new_session[:63]`. -/
def truncate63 (s : List Char) : List Char :=
  if 63 < s.length then s.take 63 else s

/-- `reset_session` of src/slack/main.py (lines 87-104):
`f"slack-{channel_id}-{int(time.time())}"`, truncated to 63 when longer.
The clock reading is passed in as `now`. -/
def reset_session_slack (channel_id : List Char) (now : Nat) : List Char :=
  truncate63 ("slack-".data ++ channel_id ++ "-".data ++ natDecRepr now)

/-- `reset_session` of src/telegram/main.py (lines 78-94):
`f"telegram-{abs(chat_id)}-{int(time.time())}"`, truncated to 63 when
longer. -/
def reset_session_tg (chat_id : Int) (now : Nat) : List Char :=
  truncate63 ("telegram-".data ++ natDecRepr chat_id.natAbs ++ "-".data ++
    natDecRepr now)

/-! ## Synchronous response extraction (src/telegram/ces_client.py 94-125)

`ces_v1.RunSessionResponse` is external; the code probes it for an
`outputs` list of objects with a `text` field and for a nested
`response.content` list of objects with a `text` field.  `repr` stands for
`str(response)`, the opaque serialization used by the fallback branch. -/

structure RunOutputPB where
  text : List Char
  deriving DecidableEq

structure RunResponsePartPB where
  content : List RunOutputPB
  deriving DecidableEq

structure RunSessionResponsePB where
  outputs : List RunOutputPB
  response : Option RunResponsePartPB
  repr : List Char
  deriving DecidableEq

/-- `CESClient._extract_response_text`: collect every truthy `text` of
`response.outputs`, then every truthy `text` of `response.response.content`,
join with a newline; fall back to `str(response)` when nothing was found.
The truthiness guards `if response.outputs:` and `if resp.content:` are
kept as written (they are redundant around an empty collection). -/
def extract_response_text (r : RunSessionResponsePB) : List Char :=
  let texts :=
    (if r.outputs ≠ [] then
       r.outputs.filterMap (fun o => if o.text ≠ [] then some o.text else none)
     else []) ++
    (match r.response with
     | some resp =>
       if resp.content ≠ [] then
         resp.content.filterMap (fun o => if o.text ≠ [] then some o.text else none)
       else []
     | none => [])
  if texts ≠ [] then List.intercalate ['\n'] texts else r.repr

/-- Definition following the words of the spec (section 4.3, amended per
the code): the non-empty `text` fields of the output list, followed by the
non-empty `text` fields of the nested response content, in list order,
newline-joined; raw serialization when none exist. -/
def extract_response_text_spec (r : RunSessionResponsePB) : List Char :=
  let ts := r.outputs.filterMap (fun o => if o.text ≠ [] then some o.text else none) ++
    (match r.response with
     | some resp =>
       resp.content.filterMap (fun o => if o.text ≠ [] then some o.text else none)
     | none => [])
  if ts ≠ [] then List.intercalate ['\n'] ts else r.repr

/-! ## Bidirectional streaming client (src/telegram/ces_client.py 128-362)

`ces_v1.BidiSessionServerMessage` is probed for `server_output.text`,
`server_output.turn_complete`, `response.content[].text` and a top-level
`turn_complete`. -/

structure ServerOutputPB where
  text : List Char
  turn_complete : Bool
  deriving DecidableEq

structure BidiResponsePartPB where
  content : List RunOutputPB
  deriving DecidableEq

structure BidiServerMessagePB where
  server_output : Option ServerOutputPB
  response : Option BidiResponsePartPB
  turn_complete : Bool
  deriving DecidableEq

/-- `BidiSessionClient._extract_bidi_response_text` (lines 314-341):
truthy `server_output.text` first, then every truthy text of
`response.content`, newline-joined; `None` when nothing was found. -/
def extract_bidi_response_text (m : BidiServerMessagePB) : Option (List Char) :=
  let texts :=
    (match m.server_output with
     | some o => if o.text ≠ [] then [o.text] else []
     | none => []) ++
    (match m.response with
     | some resp =>
       if resp.content ≠ [] then
         resp.content.filterMap (fun o => if o.text ≠ [] then some o.text else none)
       else []
     | none => [])
  if texts ≠ [] then some (List.intercalate ['\n'] texts) else none

/-- `BidiSessionClient._is_final_response` (lines 343-362): top-level
`turn_complete`, else `server_output.turn_complete`. -/
def is_final_response (m : BidiServerMessagePB) : Bool :=
  m.turn_complete ||
  (match m.server_output with
   | some o => o.turn_complete
   | none => false)

/-- Fragment list accumulated by `on_message` (lines 245-269) over a frame
sequence, in arrival order: each parsed frame contributes its extracted
text when truthy (an extracted text is never the empty string, so the
guard `if text:` coincides with the option being set). -/
def collect_responses (frames : List BidiServerMessagePB) : List (List Char) :=
  frames.filterMap extract_bidi_response_text

/-- Observable effects of the tail of `BidiSessionClient.send_message`
(lines 299-312).  The concurrency environment is summarized by what the
calling thread observes there: `fired` is the value of
`self._response_event.wait(timeout=timeout)`, `alive` the value of
`self._ws_thread.is_alive()` at the cleanup check, `error` the content of
the `self._error` slot written by the worker, `responses` the collected
fragment list.  `closeCalls` and `joinCalls` count the `ws_app.close()`
and `self._ws_thread.join(timeout=2.0)` invocations performed before the
function returns; `result` is the returned string or the raised error. -/
structure StreamFinish where
  closeCalls : Nat
  joinCalls : Nat
  result : Except (List Char) (List Char)

def send_message_finish (fired alive : Bool) (error : Option (List Char))
    (responses : List (List Char)) : StreamFinish :=
  -- if not self._response_event.wait(timeout=timeout): ws_app.close()
  let closes := if fired then 0 else 1
  -- if self._ws_thread.is_alive(): ws_app.close(); self._ws_thread.join(timeout=2.0)
  let closes := if alive then closes + 1 else closes
  let joins : Nat := if alive then 1 else 0
  -- return "\n".join(self._responses) if self._responses else ""
  let ret : Except (List Char) (List Char) :=
    Except.ok (if responses ≠ [] then List.intercalate ['\n'] responses else [])
  -- if self._error: raise Exception(f"WebSocket error: {self._error}")
  let result :=
    match error with
    | some e => if e ≠ [] then Except.error ("WebSocket error: ".data ++ e) else ret
    | none => ret
  { closeCalls := closes, joinCalls := joins, result := result }

/-! ## Message chunker (src/telegram/main.py 203-236)

`send_long_message` sends `text` unsplit when `len(text) <= max_length`;
otherwise it builds the chunk list below and sends each piece.  `chunk`
models that list (the spec MessageChunker). -/

/-- Python `text.split("\n")`: split on every newline; the empty string
yields `[""]`. -/
def splitNL : List Char → List (List Char)
  | [] => [[]]
  | c :: cs =>
    if c = '\n' then [] :: splitNL cs
    else
      match splitNL cs with
      | [] => [[c]]
      | l :: ls => (c :: l) :: ls

/-- The `while len(line) > max_length` loop: emitted `line[:max_length]`
pieces and the final remainder.  Fuel `line.length` suffices whenever
`0 < n` since each pass removes `n` characters (with `n = 0` the Python
loop would not terminate). -/
def hardSplitAux : Nat → Nat → List Char → List (List Char) × List Char
  | 0, _, line => ([], line)
  | fuel + 1, n, line =>
    if n < line.length then
      let (pieces, rest) := hardSplitAux fuel n (line.drop n)
      (line.take n :: pieces, rest)
    else ([], line)

def hardSplit (n : Nat) (line : List Char) : List (List Char) × List Char :=
  hardSplitAux line.length n line

/-- One iteration of the `for line in text.split("\n")` loop, acting on the
pair (chunks, current_chunk). -/
def chunkStep (n : Nat) (st : List (List Char) × List Char) (line : List Char) :
    List (List Char) × List Char :=
  let (chunks, current) := st
  if current.length + line.length + 1 ≤ n then
    (chunks, current ++ line ++ ['\n'])
  else
    let chunks := if current ≠ [] then chunks ++ [pyStrip current] else chunks
    let (pieces, rest) := hardSplit n line
    (chunks ++ pieces, rest ++ ['\n'])

/-- The chunk list built by `send_long_message` for `text` and
`max_length = n`, including the final `if current_chunk.strip():` flush. -/
def chunk (text : List Char) (n : Nat) : List (List Char) :=
  let st := (splitNL text).foldl (chunkStep n) ([], [])
  if pyStrip st.2 ≠ [] then st.1 ++ [pyStrip st.2] else st.1

/-! ## Bridge-level reply selection (src/slack/main.py 160-185,
src/telegram/main.py 174-200)

The transport outcome is `Except err text`: `ok` the returned response
text, `error` a raised exception.  `process_message` (Slack) returns the
chosen string; `handle_message` (Telegram) sends the analogous string. -/

def slack_no_response_msg : List Char :=
  "I received your message but couldn\x27t generate a response.".data

def slack_error_msg : List Char :=
  "Sorry, I encountered an error processing your message. Please try again later.".data

def process_message_reply (r : Except (List Char) (List Char)) : List Char :=
  match r with
  | Except.ok t => if t ≠ [] then t else slack_no_response_msg
  | Except.error _ => slack_error_msg

def tg_no_response_msg : List Char :=
  "I received your message but didn\x27t get a response. Please try again.".data

def tg_error_msg : List Char :=
  ("Sorry, I encountered an error processing your message. ".data ++
   "Please try again later.".data)

def handle_message_reply (r : Except (List Char) (List Char)) : List Char :=
  match r with
  | Except.ok t => if t ≠ [] then t else tg_no_response_msg
  | Except.error _ => tg_error_msg

/-! ## Proof-side definitions -/

/-- Bool check that every piece of a chunk list respects the length bound. -/
def allLenLe (n : Nat) (l : List (List Char)) : Bool :=
  l.all (fun p => decide (p.length ≤ n))

/-- Bool check whether a piece contains a space character. -/
def hasSpace (p : List Char) : Bool :=
  p.contains ' '

/-- Concrete synchronous response with text both in `outputs` and in the
nested `response.content` (for the C7 analysis). -/
def c7_resp : RunSessionResponsePB :=
  { outputs := [{ text := ['a'] }]
    response := some { content := [{ text := ['b'] }] }
    repr := "RAW".data }

/-- Concrete chunker input with a trailing space on its first line (for
the C8 analysis). -/
def c8_text : List Char := "a \nbb".data

/-- Loop invariant of the chunk builder: every flushed piece respects the
bound, and the accumulator is empty or of the form `c' ++ "\n"` with
`c'` within the bound. -/
def chunkInvariant (n : Nat) (st : List (List Char) × List Char) : Prop :=
  (∀ p ∈ st.1, p.length ≤ n) ∧
  (st.2 = [] ∨ ∃ c', st.2 = c' ++ ['\n'] ∧ c'.length ≤ n)

/-! ## Helper lemmas -/

theorem subChar_legal (c : Char) : legalChar (subChar c) = true := by
  unfold subChar
  by_cases h : legalChar c = true
  · rw [if_pos h]; exact h
  · rw [if_neg h]; decide

theorem map_subChar_all_legal (l : List Char) : (l.map subChar).all legalChar = true := by
  rw [List.all_eq_true]
  intro x hx
  obtain ⟨c, -, rfl⟩ := List.mem_map.mp hx
  exact subChar_legal c

theorem all_legal_take (l : List Char) (n : Nat) (h : l.all legalChar = true) :
    (l.take n).all legalChar = true := by
  rw [List.all_eq_true] at h ⊢
  intro x hx
  exact h x (List.take_subset n l hx)

/-- Well-formedness of any truncated candidate that starts with an
alphanumeric character, has only legal characters and at least 4 further
characters. -/
theorem isValidSessionId_shape (c0 : Char) (rest : List Char)
    (hc : isAsciiAlnum c0 = true) (hall : (c0 :: rest).all legalChar = true)
    (hlen : 4 ≤ rest.length) :
    isValidSessionId ((c0 :: rest).take 63) = true := by
  have htake : (c0 :: rest).take 63 = c0 :: rest.take 62 := rfl
  rw [htake]
  simp only [isValidSessionId, Bool.and_eq_true, decide_eq_true_eq]
  refine ⟨⟨⟨?_, ?_⟩, hc⟩, ?_⟩
  · simp only [List.length_cons, List.length_take]
    omega
  · simp only [List.length_cons, List.length_take]
    omega
  · simp only [List.all_cons, Bool.and_eq_true] at hall ⊢
    exact ⟨hall.1, all_legal_take rest 62 hall.2⟩

theorem natDecRepr_all_legal (n : Nat) : (natDecRepr n).all legalChar = true :=
  natDecReprAux_all_legal (n + 1) n

theorem pyStrip_length_le (s : List Char) : (pyStrip s).length ≤ s.length := by
  unfold pyStrip pyLstrip pyRstrip
  have h1 := (List.dropWhile_sublist (l := (s.reverse.dropWhile pyIsSpace).reverse)
    pyIsSpace).length_le
  have h2 := (List.dropWhile_sublist (l := s.reverse) pyIsSpace).length_le
  simp only [List.length_reverse] at h1 h2
  omega

theorem pyRstrip_append_newline (s : List Char) : pyRstrip (s ++ ['\n']) = pyRstrip s := by
  unfold pyRstrip
  rw [List.reverse_append]
  simp [List.dropWhile_cons, pyIsSpace]

theorem pyStrip_append_newline (s : List Char) : pyStrip (s ++ ['\n']) = pyStrip s := by
  unfold pyStrip
  rw [pyRstrip_append_newline]

theorem pyStrip_newline_length {c' : List Char} (n : Nat) (h : c'.length ≤ n) :
    (pyStrip (c' ++ ['\n'])).length ≤ n := by
  rw [pyStrip_append_newline]
  exact le_trans (pyStrip_length_le c') h

theorem hardSplitAux_pieces_le (fuel n : Nat) :
    ∀ line p, p ∈ (hardSplitAux fuel n line).1 → p.length ≤ n := by
  induction fuel with
  | zero => intro line p hp; simp [hardSplitAux] at hp
  | succ fuel ih =>
    intro line p hp
    by_cases h : n < line.length
    · simp only [hardSplitAux, if_pos h] at hp
      rcases List.mem_cons.mp hp with h1 | h2
      · subst h1
        simp only [List.length_take]
        omega
      · exact ih (line.drop n) p h2
    · simp [hardSplitAux, if_neg h] at hp

theorem hardSplitAux_rest_le (fuel : Nat) :
    ∀ n line, 0 < n → line.length ≤ fuel + n →
      (hardSplitAux fuel n line).2.length ≤ n := by
  induction fuel with
  | zero => intro n line hn hf; simpa [hardSplitAux] using hf
  | succ fuel ih =>
    intro n line hn hf
    by_cases h : n < line.length
    · simp only [hardSplitAux, if_pos h]
      exact ih n (line.drop n) hn (by simp only [List.length_drop]; omega)
    · simpa [hardSplitAux, if_neg h] using by omega

theorem chunkStep_inv (n : Nat) (hn : 0 < n) (st : List (List Char) × List Char)
    (line : List Char) (h : chunkInvariant n st) :
    chunkInvariant n (chunkStep n st line) := by
  obtain ⟨chunks, current⟩ := st
  obtain ⟨hchunks, hcur⟩ := h
  unfold chunkStep
  by_cases hfit : current.length + line.length + 1 ≤ n
  · simp only [if_pos hfit]
    refine ⟨hchunks, Or.inr ⟨current ++ line, ?_, ?_⟩⟩
    · simp [List.append_assoc]
    · simp only [List.length_append]
      omega
  · simp only [if_neg hfit]
    constructor
    · intro p hp
      rcases List.mem_append.mp hp with h1 | h2
      · by_cases hcne : current ≠ []
        · simp only [if_pos hcne] at h1
          rcases List.mem_append.mp h1 with h3 | h4
          · exact hchunks p h3
          · rcases hcur with hnil | ⟨c', hceq, hcle⟩
            · exact absurd hnil hcne
            · have hceq' : current = c' ++ ['\n'] := hceq
              rw [List.mem_singleton.mp h4, hceq']
              exact pyStrip_newline_length n hcle
        · simp only [if_neg hcne] at h1
          exact hchunks p h1
      · exact hardSplitAux_pieces_le line.length n line p h2
    · refine Or.inr ⟨(hardSplit n line).2, rfl, ?_⟩
      exact hardSplitAux_rest_le line.length n line hn (by omega)

theorem foldl_chunk_inv (n : Nat) (hn : 0 < n) :
    ∀ (lines : List (List Char)) (st : List (List Char) × List Char),
      chunkInvariant n st → chunkInvariant n (lines.foldl (chunkStep n) st) := by
  intro lines
  induction lines with
  | nil => intro st h; exact h
  | cons l ls ih =>
    intro st h
    exact ih (chunkStep n st l) (chunkStep_inv n hn st l h)

theorem chunk_pieces_le (text : List Char) (n : Nat) (hn : 0 < n) :
    ∀ p ∈ chunk text n, p.length ≤ n := by
  unfold chunk
  have hinv : chunkInvariant n ((splitNL text).foldl (chunkStep n) ([], [])) :=
    foldl_chunk_inv n hn (splitNL text) ([], [])
      ⟨by intro p hp; simp at hp, Or.inl rfl⟩
  obtain ⟨hchunks, hcur⟩ := hinv
  intro p hp
  by_cases hg : pyStrip ((splitNL text).foldl (chunkStep n) ([], [])).2 ≠ []
  · simp only [if_pos hg] at hp
    rcases List.mem_append.mp hp with h1 | h2
    · exact hchunks p h1
    · rcases hcur with hnil | ⟨c', hceq, hcle⟩
      · rw [hnil] at hg
        simp [pyStrip, pyLstrip, pyRstrip] at hg
      · rw [List.mem_singleton.mp h2, hceq]
        exact pyStrip_newline_length n hcle
  · simp only [if_neg hg] at hp
    exact hchunks p hp

theorem chunk_nil (n : Nat) : chunk [] n = [] := by
  unfold chunk splitNL
  by_cases h : ([] : List Char).length + ([] : List Char).length + 1 ≤ n
  · simp only [List.foldl_cons, List.foldl_nil, chunkStep, if_pos h, List.nil_append]
    simp [pyStrip, pyLstrip, pyRstrip, pyIsSpace]
  · simp only [List.foldl_cons, List.foldl_nil, chunkStep, if_neg h]
    simp [hardSplit, hardSplitAux, pyStrip, pyLstrip, pyRstrip, pyIsSpace]

/-! ## Claim theorems -/

/-- C1 counterexample: the claim says the connection is closed and the
worker joined exactly once on every terminating path.  On the timeout path
with a live worker, `ws_app.close()` is invoked twice (once in the timeout
branch, once in the cleanup branch); on a completion path where the worker
has already exited, the thread is joined zero times. -/
theorem C1_counterexample :
    (send_message_finish false true none []).closeCalls = 2
    ∧ (send_message_finish true false none []).joinCalls = 0 :=
  ⟨rfl, rfl⟩

/-- C1 amended: on every terminating path, all cleanup happens before
`send_message` returns; the worker is joined (with the 2-second bound)
exactly once when still alive at the cleanup check and zero times
otherwise, and `close` is invoked once per applicable branch: once in the
timeout branch, once in the liveness branch (hence twice on a timeout with
a live worker, and zero times when the call completed and the worker had
already exited, the connection having been torn down with the worker). -/
theorem C1_cleanup_counts (fired alive : Bool) (error : Option (List Char))
    (responses : List (List Char)) :
    (send_message_finish fired alive error responses).closeCalls =
      (if fired then 0 else 1) + (if alive then 1 else 0)
    ∧ (send_message_finish fired alive error responses).joinCalls =
      (if alive then 1 else 0) := by
  cases fired <;> cases alive <;> exact ⟨rfl, rfl⟩

/-- C2: the deployment resource name is never referenced by any outgoing
request.  `run_session` builds `SessionConfig(session=...)` only, and the
first bidi frame likewise carries only the session; the configured
deployment (whose fully-qualified name `deployment_resource_name` does
compute) is dropped on the floor. -/
theorem C2_deployment_never_sent (c : Config) (session_id user_message : List Char) :
    (build_run_session_request c session_id user_message).config.deployment = none
    ∧ (bidi_open_frames c session_id user_message).map
        (fun f => f.config.map SessionConfigPB.deployment) = [some none, none]
    ∧ deployment_resource_name
        { gcp_project_id := "p".data, gcp_region := "us".data,
          ces_app_id := "a".data, ces_deployment_id := some "d".data } =
      some "projects/p/locations/us/apps/a/deployments/d".data :=
  ⟨rfl, rfl, by decide⟩

/-- C3: for every Slack channel id and optional thread timestamp, and for
every Telegram chat id, the sanitized session id has length in [5,63],
an alphanumeric first character, and only characters in [A-Za-z0-9_-]. -/
theorem C3_sanitize_valid (channel_id : List Char) (thread_ts : Option (List Char))
    (chat_id : Int) :
    isValidSessionId (sanitize_session_id_slack channel_id thread_ts) = true
    ∧ isValidSessionId (sanitize_session_id_tg chat_id) = true := by
  constructor
  · unfold sanitize_session_id_slack
    generalize slack_thread_part thread_ts = tp
    have hl1 : ("lack-".data).length = 5 := rfl
    have hl2 : ("-".data).length = 1 := rfl
    have hshape : "slack-".data ++ channel_id ++ "-".data ++ tp
        = 's' :: ("lack-".data ++ channel_id ++ "-".data ++ tp) := rfl
    have hlen5 : ¬ (("slack-".data ++ channel_id ++ "-".data ++ tp).length < 5) := by
      rw [hshape]
      simp only [List.length_cons, List.length_append, hl1, hl2]
      omega
    simp only [padIfShort]
    rw [if_neg hlen5]
    have hfc : firstCharNotAlnum ("slack-".data ++ channel_id ++ "-".data ++ tp)
        = false := by
      rw [hshape]
      show (!(isAsciiAlnum 's')) = false
      decide
    simp only [prependIfBadFirst]
    rw [if_neg (by rw [hfc]; exact Bool.false_ne_true)]
    have hmap : ("slack-".data ++ channel_id ++ "-".data ++ tp).map subChar
        = 's' :: (("lack-".data ++ channel_id ++ "-".data ++ tp).map subChar) := by
      rw [hshape, List.map_cons]
      rw [show subChar 's' = 's' from by decide]
    rw [hmap]
    apply isValidSessionId_shape
    · decide
    · simp only [List.all_cons, Bool.and_eq_true]
      exact ⟨by decide, map_subChar_all_legal _⟩
    · simp only [List.length_map, List.length_append, hl1, hl2]
      omega
  · unfold sanitize_session_id_tg
    have hl1 : ("elegram-".data).length = 8 := rfl
    have hshape : "telegram-".data ++ natDecRepr chat_id.natAbs
        = 't' :: ("elegram-".data ++ natDecRepr chat_id.natAbs) := rfl
    have hlen5 : ¬ (("telegram-".data ++ natDecRepr chat_id.natAbs).length < 5) := by
      rw [hshape]
      simp only [List.length_cons, List.length_append, hl1]
      omega
    simp only [padIfShort]
    rw [if_neg hlen5]
    have hfc : firstCharNotAlnum ("telegram-".data ++ natDecRepr chat_id.natAbs)
        = false := by
      rw [hshape]
      show (!(isAsciiAlnum 't')) = false
      decide
    simp only [prependIfBadFirst]
    rw [if_neg (by rw [hfc]; exact Bool.false_ne_true)]
    rw [hshape]
    apply isValidSessionId_shape
    · decide
    · rw [← hshape, List.all_append, natDecRepr_all_legal, Bool.and_true]
      decide
    · simp only [List.length_append, hl1]
      omega

/-- C4 counterexample: with a 57-character channel id the fresh identifier
is truncated to 63 characters before the time component starts, so two
consecutive resets at different clock readings return the identical
session id, contradicting the claimed uniqueness. -/
theorem C4_counterexample :
    reset_session_slack (List.replicate 57 'C') 1000 =
    reset_session_slack (List.replicate 57 'C') 2000 := by decide

/-- C4 amended: provided the untruncated identifier fits in 63 characters
(so the time component survives truncation) and the two calls observe
different clock readings, `reset` returns a session id different from the
one returned by the previous reset of the same key, for both the Slack and
the Telegram registries. -/
theorem C4_reset_fresh :
    (∀ (channel_id : List Char) (t1 t2 : Nat), t1 ≠ t2 →
      ("slack-".data ++ channel_id ++ "-".data ++ natDecRepr t1).length ≤ 63 →
      ("slack-".data ++ channel_id ++ "-".data ++ natDecRepr t2).length ≤ 63 →
      reset_session_slack channel_id t1 ≠ reset_session_slack channel_id t2)
    ∧ (∀ (chat_id : Int) (t1 t2 : Nat), t1 ≠ t2 →
      ("telegram-".data ++ natDecRepr chat_id.natAbs ++ "-".data ++
        natDecRepr t1).length ≤ 63 →
      ("telegram-".data ++ natDecRepr chat_id.natAbs ++ "-".data ++
        natDecRepr t2).length ≤ 63 →
      reset_session_tg chat_id t1 ≠ reset_session_tg chat_id t2) := by
  constructor
  · intro cid t1 t2 hne h1 h2 heq
    unfold reset_session_slack truncate63 at heq
    rw [if_neg (by omega), if_neg (by omega)] at heq
    simp only [List.append_assoc] at heq
    exact hne (natDecRepr_inj
      (List.append_cancel_left (List.append_cancel_left (List.append_cancel_left heq))))
  · intro chat t1 t2 hne h1 h2 heq
    unfold reset_session_tg truncate63 at heq
    rw [if_neg (by omega), if_neg (by omega)] at heq
    simp only [List.append_assoc] at heq
    exact hne (natDecRepr_inj
      (List.append_cancel_left (List.append_cancel_left (List.append_cancel_left heq))))

/-- C4 witness: concrete distinct reset results for both registries. -/
theorem C4_witness :
    reset_session_slack "C1".data 100 ≠ reset_session_slack "C1".data 200
    ∧ reset_session_tg 5 100 ≠ reset_session_tg 5 200 :=
  ⟨C4_reset_fresh.1 "C1".data 100 200 (by decide) (by decide) (by decide),
   C4_reset_fresh.2 5 100 200 (by decide) (by decide) (by decide)⟩

/-- C5 counterexample: on the timeout path (completion signal never fired)
with no worker error and fragments collected, the call returns the joined
fragments normally; no TimeoutError (no exception at all) is reported to
the caller, contradicting the claim. -/
theorem C5_counterexample :
    (send_message_finish false true none [['h', 'i']]).result =
      Except.ok ['h', 'i'] :=
  rfl

/-- C5 amended: if the completion signal does not fire within the timeout
and the worker set no error, `send_message` force-closes the connection
(at least one close is invoked) and returns the fragments collected so
far, newline-joined; the timeout is only logged, never raised. -/
theorem C5_timeout_partial (alive : Bool) (responses : List (List Char)) :
    1 ≤ (send_message_finish false alive none responses).closeCalls
    ∧ (send_message_finish false alive none responses).result =
      Except.ok (List.intercalate ['\n'] responses) := by
  constructor
  · cases alive <;> simp [send_message_finish]
  · by_cases hr : responses = [] <;>
      simp [send_message_finish, hr, List.intercalate]

/-- C6 counterexample: the worker can set the error slot to the empty
string (the `str()` of an exception without message); the truthiness check
`if self._error:` then does not raise, so raising is not equivalent to the
slot having been set, contradicting the claimed if-and-only-if. -/
theorem C6_counterexample :
    (send_message_finish true false (some []) [['h']]).result = Except.ok ['h'] :=
  rfl

/-- C6 amended: the call raises (the transport error carrying the worker
error text) if and only if the error slot holds a non-empty string;
otherwise it returns exactly the collected fragments joined with a single
newline, in frame-arrival order without reordering, deduplication or
trimming (the collector is an order-preserving filter over arriving
frames), and the empty string when none were collected. -/
theorem C6_result_characterization (fired alive : Bool) (e : List Char)
    (responses : List (List Char)) (fs gs : List BidiServerMessagePB) :
    (send_message_finish fired alive (some e) responses).result =
      (if e ≠ [] then Except.error ("WebSocket error: ".data ++ e)
       else Except.ok (List.intercalate ['\n'] responses))
    ∧ (send_message_finish fired alive none responses).result =
      Except.ok (List.intercalate ['\n'] responses)
    ∧ collect_responses (fs ++ gs) = collect_responses fs ++ collect_responses gs
    ∧ collect_responses [] = [] := by
  refine ⟨?_, ?_, List.filterMap_append fs gs extract_bidi_response_text, rfl⟩
  · by_cases he : e = []
    · subst he
      by_cases hr : responses = [] <;>
        simp [send_message_finish, hr, List.intercalate]
    · by_cases hr : responses = [] <;>
        simp [send_message_finish, he, hr, List.intercalate]
  · by_cases hr : responses = [] <;>
      simp [send_message_finish, hr, List.intercalate]

/-- C7 counterexample: a response whose `outputs` carry text `a` and whose
nested `response.content` carries text `b` yields `a\nb`, not the
newline-join `a` of the outputs list alone, contradicting the claim that
the result is built from the outputs list only. -/
theorem C7_counterexample :
    extract_response_text c7_resp = ['a', '\n', 'b']
    ∧ extract_response_text c7_resp ≠ ['a'] := by decide

/-- C7 amended: `run_session` returns the newline-join of every non-empty
text field of the outputs list followed by every non-empty text field of
the nested response content list, in list order; when no text is found in
either place it returns the raw serialized response instead of raising, so
the caller always receives a string.  Stated as a refinement: the code
extraction equals the spec-shaped extraction on every response. -/
theorem C7_extract_refines_spec (r : RunSessionResponsePB) :
    extract_response_text r = extract_response_text_spec r := by
  obtain ⟨outputs, response, repr⟩ := r
  cases response with
  | none =>
    by_cases h : outputs = [] <;>
      simp [extract_response_text, extract_response_text_spec, h]
  | some resp =>
    by_cases h : outputs = [] <;> by_cases h2 : resp.content = [] <;>
      simp [extract_response_text, extract_response_text_spec, h, h2]

/-- C8 counterexample: with limit 3 the text `a \nbb` chunks to `a` and
`bb`: the flushed pieces are whitespace-stripped, the space of the first
line is lost from every piece, and reinserting the separators cannot
reproduce the input, contradicting the claimed exact reconstruction. -/
theorem C8_counterexample :
    chunk c8_text 3 = [['a'], ['b', 'b']]
    ∧ List.intercalate ['\n'] (chunk c8_text 3) ≠ c8_text
    ∧ c8_text.contains ' ' = true
    ∧ (chunk c8_text 3).map hasSpace = [false, false] := by decide

/-- C8 amended: for every text and every maxLength N > 0, every piece of
the chunk list has length at most N, and empty input yields the empty
sequence; pieces are whitespace-stripped when flushed, so rejoining
reproduces the input only up to whitespace at piece boundaries; a single
line of 3N identical non-whitespace characters (here N = 4) still yields
exactly 3 pieces of length N. -/
theorem C8_chunk_bounds (text : List Char) (n : Nat) (hn : 0 < n) :
    allLenLe n (chunk text n) = true
    ∧ chunk [] n = []
    ∧ chunk (List.replicate 12 'a') 4 =
      [List.replicate 4 'a', List.replicate 4 'a', List.replicate 4 'a'] := by
  refine ⟨?_, chunk_nil n, by decide⟩
  rw [allLenLe, List.all_eq_true]
  intro p hp
  simpa using chunk_pieces_le text n hn p hp

/-- C8 witness: the bounds instantiated at concrete inputs. -/
theorem C8_witness :
    allLenLe 3 (chunk ("ab".data ++ '\n' :: "cd".data) 3) = true
    ∧ chunk [] 3 = [] :=
  ⟨(C8_chunk_bounds ("ab".data ++ '\n' :: "cd".data) 3 (by decide)).1,
   (C8_chunk_bounds [] 3 (by decide)).2.1⟩

/-- C9: the Telegram sanitizer builds the id from `abs(chat_id)`, so a
chat id and its negation sanitize to the same session id, and with a fresh
registry both resolve to the same backend session id. -/
theorem C9_sign_invariance (chat_id : Int) :
    sanitize_session_id_tg chat_id = sanitize_session_id_tg (-chat_id)
    ∧ (get_session_id_tg [] chat_id).1 = (get_session_id_tg [] (-chat_id)).1 := by
  have h : (-chat_id).natAbs = chat_id.natAbs := Int.natAbs_neg chat_id
  constructor
  · unfold sanitize_session_id_tg
    rw [h]
  · unfold get_session_id_tg
    simp only [List.lookup_nil]
    unfold sanitize_session_id_tg
    rw [h]

/-- C10: the bridge-level reply is always a non-empty string: an empty
transport response text is replaced by the fixed placeholder message and a
raised transport exception by the fixed apology string, in both the Slack
and the Telegram handlers. -/
theorem C10_reply_nonempty (r : Except (List Char) (List Char)) (e : List Char) :
    process_message_reply r ≠ [] ∧ handle_message_reply r ≠ []
    ∧ process_message_reply (Except.ok []) = slack_no_response_msg
    ∧ handle_message_reply (Except.ok []) = tg_no_response_msg
    ∧ process_message_reply (Except.error e) = slack_error_msg
    ∧ handle_message_reply (Except.error e) = tg_error_msg := by
  refine ⟨?_, ?_, rfl, rfl, rfl, rfl⟩
  · cases r with
    | ok t =>
      by_cases h : t = []
      · subst h
        show slack_no_response_msg ≠ []
        decide
      · simp [process_message_reply, h]
    | error err =>
      show slack_error_msg ≠ []
      decide
  · cases r with
    | ok t =>
      by_cases h : t = []
      · subst h
        show tg_no_response_msg ≠ []
        decide
      · simp [handle_message_reply, h]
    | error err =>
      show tg_error_msg ≠ []
      decide

end CesBridge
